import Mathlib

/-!
Verification of the CV-Automation repository (src/cv_automation.py) against its
natural-language specification. Python structures are shallowly embedded:
dictionaries become association lists read left to right, Python strings
become Lean strings (both are sequences of code points), slice and index
operations are modelled explicitly, and file reads / writes that can fail are
modelled by explicit boolean outcome flags.
-/

namespace CVAutomation

/-- Python slice `s[:n]` on code points: the first `n` characters of `s`. -/
def pyTake (s : String) (n : Nat) : String := String.mk (s.data.take n)

/-- Python `s.lower()`, applied character by character. -/
def pyLower (s : String) : String := String.mk (s.data.map Char.toLower)

/-- Python `d.get(key, dflt)` over an association list read left to right,
mirroring how `row.get("Section", "")` and the summary lookup
behave in the source. -/
def dictGet (d : List (String × String)) (key dflt : String) : String :=
  match d.find? (fun p => p.1 == key) with
  | some p => p.2
  | none => dflt

/-- `CVAutomation._extract_cv_sections` (src/cv_automation.py lines 163-186):
builds the five-key section dictionary, with `summary` set to
`text[:200] if len(text) > 200 else text` and every other key left `""`. -/
def extract_cv_sections (text : String) : List (String × String) :=
  [("summary", if text.length > 200 then pyTake text 200 else text),
   ("experience", ""),
   ("education", ""),
   ("skills", ""),
   ("certifications", "")]

/-- The `requirements` list built by `CVAutomation.parse_job_description`
(lines 253-257): the list comprehension
a list of `line.strip()` over `jd_text.split` on newline, keeping lines where
`line.strip()` is truthy and longer than 10 characters. -/
def parse_job_description (jd_text : String) : List String :=
  (jd_text.splitOn "\n").filterMap (fun line =>
    if line.trim ≠ "" ∧ line.trim.length > 10 then some line.trim else none)

/-- Statement of the spec, for comparison with `parse_job_description`:
every line of the source text, trimmed, filtered to non-blank lines whose
trimmed length exceeds 10 characters, in original order. -/
def spec_requirements (jd_text : String) : List String :=
  ((jd_text.splitOn "\n").map String.trim).filter
    (fun s => decide (s ≠ "" ∧ s.length > 10))

/-- One instruction row turned into a rule by `CVAutomation.parse_instructions`
(lines 209-218). Python calls the first field `section`; that word is a Lean
keyword, so the field is named `sect` here. -/
structure MappingRule where
  sect : String
  field : String
  rule : String
  value : String
deriving DecidableEq

/-- The per-row body of the loop in `CVAutomation.parse_instructions`:
each of section, field, rule and value is `row.get` of the corresponding
column name with default `""`. -/
def rule_of_row (row : List (String × String)) : MappingRule :=
  { sect := dictGet row "Section" "",
    field := dictGet row "Field" "",
    rule := dictGet row "Rule" "",
    value := dictGet row "Value" "" }

/-- `CVAutomation.parse_instructions` over the tabular rows: one rule per row,
in row order. -/
def parse_instructions (rows : List (List (String × String))) : List MappingRule :=
  rows.map rule_of_row

/-- One entry of the traceability log built by `CVAutomation._log_traceability`
(lines 385-410). The wall-clock `timestamp` field is not modelled. -/
structure TraceEntry where
  step : String
  description : String
  data_summary : String
deriving DecidableEq

/-- The `data_summary` computation of `_log_traceability` (lines 394-402):
`data_str[:500] + "..."` when `len(data_str) > 500`, else `data_str`. -/
def truncated_summary (data_str : String) : String :=
  if data_str.length > 500 then pyTake data_str 500 ++ "..." else data_str

/-- `CVAutomation._log_traceability`: appends one entry whose `data_summary`
is the truncated string form of the data. -/
def log_traceability (log : List TraceEntry) (step descr data_str : String) :
    List TraceEntry :=
  log ++ [{ step := step, description := descr,
            data_summary := truncated_summary data_str }]

/-- `pptx.util.Inches`: one inch is 914400 English Metric Units. -/
def Inches (n : Nat) : Nat := n * 914400

/-- A text box added by `slide.shapes.add_textbox(left, top, width, height)`
followed by writing `text_frame.text` and optionally `text_frame.word_wrap`.
The source never sets `word_wrap` on the title box; that default is modelled
as `false`. -/
structure TextBox where
  left : Nat
  top : Nat
  width : Nat
  height : Nat
  text : String
  word_wrap : Bool
deriving DecidableEq

/-- A slide layout of the template, abstracted to the one property
`_populate_slides` can observe on a slide created from it: whether the layout
carries a title placeholder. -/
structure SlideLayout where
  has_title : Bool
deriving DecidableEq

/-- A slide: `title` models `slide.shapes.title` (`none` when the slide has no
title placeholder, `some t` when a placeholder with text `t` exists); `shapes`
collects the text boxes added by `add_textbox`, in insertion order. -/
structure Slide where
  title : Option String
  shapes : List TextBox
deriving DecidableEq

/-- A presentation handle: its existing slides and the template layouts. -/
structure Pres where
  slides : List Slide
  slide_layouts : List SlideLayout
deriving DecidableEq

/-- `prs.slides.add_slide(layout)`: the new slide starts with the layout
placeholders (an empty title placeholder when the layout has one) and no
added text boxes. -/
def add_slide_from_layout (layout : SlideLayout) : Slide :=
  { title := if layout.has_title then some "" else none, shapes := [] }

/-- The index computation of `_populate_slides` line 314:
`blank_layout_index = min(6, len(prs.slide_layouts) - 1)`, over Python
integers, hence `-1` when the layout collection is empty. -/
def blank_layout_index (layout_count : Nat) : Int :=
  min 6 ((layout_count : Int) - 1)

/-- Python list indexing `layouts[i]`: a nonnegative index reads from the
front, a negative index `i` reads position `i + len`, and anything still out
of range raises IndexError, modelled as `none`. -/
def py_layout_get (layouts : List SlideLayout) (i : Int) : Option SlideLayout :=
  if 0 ≤ i then layouts.get? i.toNat
  else if 0 ≤ i + (layouts.length : Int) then
    layouts.get? (i + (layouts.length : Int)).toNat
  else none

/-- The per-slide work of `_populate_slides` (lines 320-344): when the slide
has no title placeholder, add a "CV Summary" text box at (1in, 1in, 8in, 1in);
then always add the body text box at (1in, 2in, 8in, 4in) with word wrap on.
`cv_sections` is `some` of the `sections` dictionary when `self.cv_data` is
non-empty and has a `sections` key, `none` otherwise (in which case the body
box keeps its empty default text). -/
def populate_slide (cv_sections : Option (List (String × String)))
    (slide : Slide) : Slide :=
  let slide1 :=
    if slide.title = none then
      { slide with shapes := slide.shapes ++
        [{ left := Inches 1, top := Inches 1, width := Inches 8,
           height := Inches 1, text := "CV Summary", word_wrap := false }] }
    else slide
  let body_text :=
    match cv_sections with
    | some secs => "Summary:\n" ++ dictGet secs "summary" "No summary available"
    | none => ""
  { slide1 with shapes := slide1.shapes ++
    [{ left := Inches 1, top := Inches 2, width := Inches 8,
       height := Inches 4, text := body_text, word_wrap := true }] }

/-- `CVAutomation._populate_slides` (lines 303-344): with zero existing
slides, add one slide from the layout at `min(6, len(layouts) - 1)` (an
IndexError, modelled `none`, when that index is out of range); otherwise work
on the first existing slide. Only the chosen slide is written to. -/
def populate_slides (cv_sections : Option (List (String × String)))
    (prs : Pres) : Option Pres :=
  match prs.slides with
  | [] =>
    match py_layout_get prs.slide_layouts
        (blank_layout_index prs.slide_layouts.length) with
    | none => none
    | some layout =>
      some { slides := [populate_slide cv_sections (add_slide_from_layout layout)],
             slide_layouts := prs.slide_layouts }
  | s :: rest =>
    some { slides := populate_slide cv_sections s :: rest,
           slide_layouts := prs.slide_layouts }

/-- The `raw_text` computation of `CVAutomation.parse_cv` (lines 141-153),
dispatching on the lower-cased file extension. -/
def parse_cv_raw_text (ext name text : String) : String :=
  if pyLower ext = ".txt" then text
  else if pyLower ext = ".pdf" ∨ pyLower ext = ".docx" then
    "CV from file: " ++ name
  else "Unsupported format: " ++ name

/-- The `summary` block of the traceability report
(`generate_traceability_report`, lines 371-375). -/
structure Report where
  total_steps : Nat
  cv_sections_extracted : Nat
  instruction_rules : Nat
deriving DecidableEq

/-- The inputs of one run, as the workflow observes them: existence flags and
extensions of the four paths, the decoded CV text, the instruction rows the
spreadsheet reader returns, and the template presentation. -/
structure RunInputs where
  cv_exists : Bool
  cv_ext : String
  cv_name : String
  cv_text : String
  instructions_exists : Bool
  instructions_ext : String
  instruction_rows : List (List (String × String))
  template_exists : Bool
  template_ext : String
  template : Pres
  jd_provided : Bool
  jd_exists : Bool
  jd_text : String
deriving DecidableEq

/-- Outcome flags for the fallible external operations a run performs, in
program order: reading the spreadsheet, reading the job description, loading
the template, saving the presentation, and writing the report file. -/
structure IoFlags where
  instructions_readable : Bool
  jd_readable : Bool
  template_loadable : Bool
  save_ok : Bool
  report_write_ok : Bool
deriving DecidableEq

/-- What one run leaves behind: whether it succeeded, which of the two output
artifacts exist on disk, the step tags of the traceability log in order, the
populated presentation (once saved) and the report summary (once written). -/
structure RunOutcome where
  success : Bool
  ppt_written : Bool
  report_written : Bool
  trace : List String
  pres : Option Pres
  report : Option Report
deriving DecidableEq

/-- `CVAutomation.validate_inputs` (lines 84-122): existence of the three
required files, `.xlsx`/`.xls` extension (lower-cased) for the instructions,
`.pptx` for the template, and existence of the job description only when one
was supplied. -/
def validate_inputs (inp : RunInputs) : Bool :=
  inp.cv_exists &&
  inp.instructions_exists &&
  (pyLower inp.instructions_ext == ".xlsx" || pyLower inp.instructions_ext == ".xls") &&
  inp.template_exists &&
  (pyLower inp.template_ext == ".pptx") &&
  (!inp.jd_provided || inp.jd_exists)

/-- A run that aborted: no artifact on disk, the trace as accumulated so far. -/
def failed_outcome (trace : List String) : RunOutcome :=
  { success := false, ppt_written := false, report_written := false,
    trace := trace, pres := none, report := none }

/-- `CVAutomation.run` (lines 412-447): validate, parse the CV (logging
`cv_parsing`), parse the instructions (logging `instruction_parsing`), parse
the job description when provided (logging `jd_parsing`), generate the
presentation (template load, slide population, save, then logging
`ppt_generation`), and finally write the report, whose `total_steps` counts
the log entries at that moment. Any failing step aborts the run; the
presentation file persists once `prs.save` succeeded, even if the later
report write fails. -/
def run (inp : RunInputs) (io_flags : IoFlags) : RunOutcome :=
  if validate_inputs inp then
    let sections := extract_cv_sections
      (parse_cv_raw_text inp.cv_ext inp.cv_name inp.cv_text)
    let rules := parse_instructions inp.instruction_rows
    if io_flags.instructions_readable then
      let trace2 := ["cv_parsing", "instruction_parsing"]
      if inp.jd_provided && !io_flags.jd_readable then failed_outcome trace2
      else
        let trace3 := if inp.jd_provided then trace2 ++ ["jd_parsing"] else trace2
        if io_flags.template_loadable then
          match populate_slides (some sections) inp.template with
          | some prs =>
            if io_flags.save_ok then
              let trace4 := trace3 ++ ["ppt_generation"]
              if io_flags.report_write_ok then
                { success := true, ppt_written := true, report_written := true,
                  trace := trace4, pres := some prs,
                  report := some { total_steps := trace4.length,
                                   cv_sections_extracted := sections.length,
                                   instruction_rules := rules.length } }
              else
                { success := false, ppt_written := true, report_written := false,
                  trace := trace4, pres := some prs, report := none }
            else failed_outcome trace3
          | none => failed_outcome trace3
        else failed_outcome trace3
    else failed_outcome ["cv_parsing"]
  else failed_outcome []

/-- The inputs of the end-to-end scenario of spec section 8: `resume.txt`
containing `"Experienced engineer..."`, a one-rule instruction table, a
template with zero slides and 7 layouts whose conventional blank layout sits
at index 6, and no job description. -/
def sample_inputs : RunInputs :=
  { cv_exists := true, cv_ext := ".txt", cv_name := "resume.txt",
    cv_text := "Experienced engineer...",
    instructions_exists := true, instructions_ext := ".xlsx",
    instruction_rows := [[("Section", "summary"), ("Field", "body"),
                          ("Rule", "copy"), ("Value", "")]],
    template_exists := true, template_ext := ".pptx",
    template := { slides := [],
                  slide_layouts := List.replicate 6 { has_title := true } ++
                    [{ has_title := false }] },
    jd_provided := false, jd_exists := false, jd_text := "" }

/-- All external operations succeed. -/
def io_all_ok : IoFlags :=
  { instructions_readable := true, jd_readable := true,
    template_loadable := true, save_ok := true, report_write_ok := true }

/-- Claim C5: for every plain-text CV input, extraction produces a section
dictionary whose keys are exactly summary, experience, education, skills,
certifications (in that order); the summary value is the first 200 characters
of the input (the whole input when it has at most 200 characters); the other
four keys map to the empty string. -/
theorem c5_extract_sections (text : String) :
    (extract_cv_sections text).map Prod.fst =
      ["summary", "experience", "education", "skills", "certifications"] ∧
    dictGet (extract_cv_sections text) "summary" "" =
      (if text.length ≤ 200 then text else pyTake text 200) ∧
    (∀ k, k ∈ ["experience", "education", "skills", "certifications"] →
      dictGet (extract_cv_sections text) k "missing" = "") := by
  refine ⟨rfl, ?_, ?_⟩
  · rcases le_or_lt text.length 200 with h | h
    · rw [if_pos h]
      unfold extract_cv_sections dictGet
      rw [if_neg (by omega)]
      rfl
    · rw [if_neg (by omega)]
      unfold extract_cv_sections dictGet
      rw [if_pos h]
      rfl
  · intro k hk
    fin_cases hk <;> rfl

/-- Witness for C5 at a concrete two-character input. -/
theorem c5_witness :
    dictGet (extract_cv_sections "hi") "skills" "missing" = "" :=
  (c5_extract_sections "hi").2.2 "skills" (by decide)

/-- Claim C6: for every job-description text, the extracted requirements list
contains exactly the trimmed non-blank lines whose trimmed length exceeds 10
characters, in original line order, and no other entries. -/
theorem c6_requirements (jd_text : String) :
    parse_job_description jd_text = spec_requirements jd_text := by
  unfold parse_job_description spec_requirements
  generalize jd_text.splitOn "\n" = L
  induction L with
  | nil => rfl
  | cons a l ih =>
    simp only [List.filterMap_cons, List.map_cons, List.filter_cons]
    by_cases h : a.trim ≠ "" ∧ a.trim.length > 10
    · rw [if_pos h, ih]
      simp [h]
    · rw [if_neg h, ih]
      simp [h]

/-- Claim C7: parsing a tabular instruction source with N rows yields exactly
N rules, the i-th rule coming from the i-th row; a row with no Value column
yields a rule whose value field is the empty string. -/
theorem c7_rule_table (rows : List (List (String × String))) :
    (parse_instructions rows).length = rows.length ∧
    (∀ i : Nat, (parse_instructions rows).get? i = (rows.get? i).map rule_of_row) ∧
    (∀ row ∈ rows, row.find? (fun p => p.1 == "Value") = none →
      (rule_of_row row).value = "") := by
  refine ⟨by simp [parse_instructions], ?_, ?_⟩
  · intro i
    simp [parse_instructions]
  · intro row _ h
    simp [rule_of_row, dictGet, h]

/-- Witness for C7: a one-row table whose row has no Value column. -/
theorem c7_witness :
    (parse_instructions [[("Section", "summary"), ("Field", "body"), ("Rule", "copy")]]).length = 1 ∧
    (rule_of_row [("Section", "summary"), ("Field", "body"), ("Rule", "copy")]).value = "" :=
  ⟨(c7_rule_table [[("Section", "summary"), ("Field", "body"), ("Rule", "copy")]]).1,
   (c7_rule_table [[("Section", "summary"), ("Field", "body"), ("Rule", "copy")]]).2.2
     [("Section", "summary"), ("Field", "body"), ("Rule", "copy")] (by decide) (by decide)⟩

/-- Claim C2, counterexample: on a CVDocument whose summary section is
present but empty, the population engine writes `"Summary:\n"` followed by
nothing into the body region — not the fallback text `"No summary
available"` the claim promises for an empty summary. -/
theorem c2_counterexample :
    (populate_slide (some [("summary", "")])
        { title := some "Existing title", shapes := [] }).shapes.map TextBox.text =
      ["Summary:\n"] ∧
    "Summary:\n" ≠ "Summary:\nNo summary available" := by decide

/-- Claim C2 as amended: for every section dictionary, the body text region
(the last shape added) receives `"Summary:"`, a newline, and the summary
section looked up with fallback `"No summary available"` — so the fallback
appears only when the summary key is absent, while a present-but-empty
summary yields `"Summary:\n"` with nothing after the newline. -/
theorem c2_body_text (secs : List (String × String)) (slide : Slide) :
    ∃ pre : List TextBox,
      (populate_slide (some secs) slide).shapes = pre ++
        [{ left := Inches 1, top := Inches 2, width := Inches 8,
           height := Inches 4,
           text := "Summary:\n" ++ dictGet secs "summary" "No summary available",
           word_wrap := true }] :=
  ⟨_, rfl⟩

set_option maxRecDepth 4000 in
/-- Claim C3, counterexample: for a data string of 501 characters (longer
than 500), the stored summary has length 503, not the 501 + 3 = 504 the
claim asserts. -/
theorem c3_counterexample :
    (truncated_summary (String.mk (List.replicate 501 'a'))).length = 503 ∧
    (503 : Nat) ≠ 501 + 3 := by decide

/-- Claim C3 as amended: `_log_traceability` stores the truncated string form
of the data; for data longer than 500 characters the stored summary has
length exactly 500 plus the 3 characters the ellipsis marker adds and ends
with the marker `"..."`; for data of at most 500 characters it equals the
untruncated string. -/
theorem c3_truncation_law (log : List TraceEntry) (step descr data_str : String) :
    log_traceability log step descr data_str =
      log ++ [{ step := step, description := descr,
                data_summary := truncated_summary data_str }] ∧
    (data_str.length > 500 →
      (truncated_summary data_str).length = 500 + 3 ∧
      ∃ t : String, truncated_summary data_str = t ++ "...") ∧
    (data_str.length ≤ 500 → truncated_summary data_str = data_str) := by
  refine ⟨rfl, ?_, ?_⟩
  · intro h
    unfold truncated_summary
    rw [if_pos h]
    constructor
    · rw [String.length_append]
      have ht : (pyTake data_str 500).length = 500 := by
        show (data_str.data.take 500).length = 500
        rw [List.length_take]
        have : data_str.length = data_str.data.length := rfl
        omega
      rw [ht]
      decide
    · exact ⟨pyTake data_str 500, rfl⟩
  · intro h
    unfold truncated_summary
    rw [if_neg (by omega)]

set_option maxRecDepth 4000 in
/-- Witness for C3 as amended, at a 501-character string and at a short one. -/
theorem c3_witness :
    (truncated_summary (String.mk (List.replicate 501 'a'))).length = 500 + 3 ∧
    truncated_summary "short data" = "short data" :=
  ⟨((c3_truncation_law [] "step" "descr" (String.mk (List.replicate 501 'a'))).2.1
      (by decide)).1,
   (c3_truncation_law [] "step" "descr" "short data").2.2 (by decide)⟩

/-- Claim C9, counterexample: with zero existing slides and an empty layout
collection (fewer than 7 layouts), the selected index is -1 and slide
population raises IndexError (modelled `none`) instead of resolving to a
valid in-bounds index of a last available layout. -/
theorem c9_counterexample :
    blank_layout_index 0 = -1 ∧
    populate_slides (some (extract_cv_sections "x"))
      { slides := [], slide_layouts := [] } = none := by decide

/-- Claim C9 as amended: for every target document with zero existing slides
and at least one available layout, the population engine creates exactly one
slide from the layout selected at index `min(6, availableLayoutCount - 1)`;
whenever there are fewer than 7 layouts (but at least one), that index is the
last available one, and it is always in bounds. -/
theorem c9_layout_clamp (prs : Pres)
    (cv_sections : Option (List (String × String)))
    (h : prs.slides = []) (hl : prs.slide_layouts ≠ []) :
    ∃ layout : SlideLayout,
      0 ≤ blank_layout_index prs.slide_layouts.length ∧
      (blank_layout_index prs.slide_layouts.length).toNat < prs.slide_layouts.length ∧
      (prs.slide_layouts.length < 7 →
        (blank_layout_index prs.slide_layouts.length).toNat + 1 = prs.slide_layouts.length) ∧
      prs.slide_layouts.get? (blank_layout_index prs.slide_layouts.length).toNat = some layout ∧
      populate_slides cv_sections prs =
        some { slides := [populate_slide cv_sections (add_slide_from_layout layout)],
               slide_layouts := prs.slide_layouts } := by
  obtain ⟨slides, layouts⟩ := prs
  simp only at h hl ⊢
  subst h
  have hn : 1 ≤ layouts.length := List.length_pos.mpr hl
  have hidx : blank_layout_index layouts.length = min 6 ((layouts.length : Int) - 1) := rfl
  have h0 : 0 ≤ blank_layout_index layouts.length := by
    rw [hidx]
    rcases le_total (6 : Int) ((layouts.length : Int) - 1) with hc | hc
    · rw [min_eq_left hc]; omega
    · rw [min_eq_right hc]; omega
  have hk : (blank_layout_index layouts.length).toNat < layouts.length := by
    have hle : blank_layout_index layouts.length ≤ (layouts.length : Int) - 1 := by
      rw [hidx]; exact min_le_right _ _
    omega
  have hlast : layouts.length < 7 →
      (blank_layout_index layouts.length).toNat + 1 = layouts.length := by
    intro h7
    have : blank_layout_index layouts.length = (layouts.length : Int) - 1 := by
      rw [hidx, min_eq_right (by omega)]
    omega
  refine ⟨layouts.get ⟨(blank_layout_index layouts.length).toNat, hk⟩,
    h0, hk, hlast, List.get?_eq_get hk, ?_⟩
  have hpy : py_layout_get layouts (blank_layout_index layouts.length) =
      some (layouts.get ⟨(blank_layout_index layouts.length).toNat, hk⟩) := by
    unfold py_layout_get
    rw [if_pos h0]
    exact List.get?_eq_get hk
  unfold populate_slides
  simp only
  rw [hpy]

/-- A three-layout template with no slides, used to witness the layout clamp. -/
def three_layout_pres : Pres :=
  { slides := [],
    slide_layouts := [{ has_title := true }, { has_title := true },
                      { has_title := false }] }

/-- Witness for C9 as amended at a template with three layouts: the clamped
index is 2, the last layout. -/
theorem c9_witness :
    ∃ layout : SlideLayout,
      0 ≤ blank_layout_index three_layout_pres.slide_layouts.length ∧
      (blank_layout_index three_layout_pres.slide_layouts.length).toNat <
        three_layout_pres.slide_layouts.length ∧
      (three_layout_pres.slide_layouts.length < 7 →
        (blank_layout_index three_layout_pres.slide_layouts.length).toNat + 1 =
          three_layout_pres.slide_layouts.length) ∧
      three_layout_pres.slide_layouts.get?
        (blank_layout_index three_layout_pres.slide_layouts.length).toNat = some layout ∧
      populate_slides none three_layout_pres =
        some { slides := [populate_slide none (add_slide_from_layout layout)],
               slide_layouts := three_layout_pres.slide_layouts } :=
  c9_layout_clamp three_layout_pres none rfl (by decide)

/-- Claim C10: when the target document already has at least one slide, the
population engine adds no slide — it rewrites the first slide in place and
every other slide (every index from 1 up) is left unchanged. -/
theorem c10_first_slide_only (cv_sections : Option (List (String × String)))
    (prs : Pres) (first : Slide) (rest : List Slide)
    (h : prs.slides = first :: rest) :
    populate_slides cv_sections prs =
      some { slides := populate_slide cv_sections first :: rest,
             slide_layouts := prs.slide_layouts } ∧
    (populate_slide cv_sections first :: rest).length = prs.slides.length ∧
    (∀ i : Nat, (populate_slide cv_sections first :: rest).get? (i + 1) =
      prs.slides.get? (i + 1)) := by
  obtain ⟨slides, layouts⟩ := prs
  simp only at h ⊢
  subst h
  refine ⟨rfl, rfl, ?_⟩
  intro i
  rfl

/-- A two-slide presentation used to witness the frame property. -/
def two_slide_pres : Pres :=
  { slides := [{ title := some "First", shapes := [] },
               { title := some "Second", shapes := [] }],
    slide_layouts := [] }

/-- Witness for C10 at a concrete two-slide presentation: the second slide is
untouched. -/
theorem c10_witness :
    (populate_slide none { title := some "First", shapes := [] } ::
        [{ title := some "Second", shapes := [] }]).get? 1 =
      two_slide_pres.slides.get? 1 :=
  (c10_first_slide_only none two_slide_pres { title := some "First", shapes := [] }
    [{ title := some "Second", shapes := [] }] rfl).2.2 0

/-- Claim C1: end-to-end scenario. For the plain-text CV whose raw text is
the string "Experienced engineer...", a one-rule instruction table, a
template with zero slides and 7 layouts (the conventional blank layout at
index 6), and no job description, the run creates exactly one slide via
layout index `min(6, 7 - 1) = 6`, with a title region containing
"CV Summary" and a body region containing "Summary:" followed by a newline
and "Experienced engineer..."; the traceability report records
total_steps = 3 and cv_sections_extracted = 5. -/
theorem c1_end_to_end :
    blank_layout_index 7 = 6 ∧
    run sample_inputs io_all_ok =
      { success := true, ppt_written := true, report_written := true,
        trace := ["cv_parsing", "instruction_parsing", "ppt_generation"],
        pres := some
          { slides := [{ title := none, shapes :=
              [{ left := Inches 1, top := Inches 1, width := Inches 8,
                 height := Inches 1, text := "CV Summary", word_wrap := false },
               { left := Inches 1, top := Inches 2, width := Inches 8,
                 height := Inches 4, text := "Summary:\nExperienced engineer...",
                 word_wrap := true }] }],
            slide_layouts := List.replicate 6 { has_title := true } ++
              [{ has_title := false }] },
        report := some { total_steps := 3, cv_sections_extracted := 5,
                         instruction_rules := 1 } } := by
  constructor
  · decide
  · decide

/-- Claim C4, counterexample: when every step succeeds except the final
report write, the run fails but the saved presentation artifact already
exists — one artifact is produced without the other, contradicting the
all-or-nothing claim. -/
theorem c4_counterexample :
    (run sample_inputs
        { instructions_readable := true, jd_readable := true,
          template_loadable := true, save_ok := true,
          report_write_ok := false }).success = false ∧
    (run sample_inputs
        { instructions_readable := true, jd_readable := true,
          template_loadable := true, save_ok := true,
          report_write_ok := false }).ppt_written = true ∧
    (run sample_inputs
        { instructions_readable := true, jd_readable := true,
          template_loadable := true, save_ok := true,
          report_write_ok := false }).report_written = false := by decide

/-- Claim C4 as amended: for every run, a successful run produces both
output artifacts, and the traceability report is never produced without the
slide document; but because the document is persisted before the report is
written, a failure during report writing leaves the slide document produced
while the run reports failure. -/
theorem c4_artifact_order (inp : RunInputs) (io_flags : IoFlags) :
    ((run inp io_flags).success = true →
      (run inp io_flags).ppt_written = true ∧
      (run inp io_flags).report_written = true) ∧
    ((run inp io_flags).report_written = true →
      (run inp io_flags).ppt_written = true) := by
  obtain ⟨ir, jr, tl, so, rwok⟩ := io_flags
  cases h : validate_inputs inp with
  | false => simp [run, h, failed_outcome]
  | true =>
    cases ir <;> cases jr <;> cases tl <;> cases so <;> cases rwok <;>
      cases hp : inp.jd_provided <;>
      cases hq : populate_slides
        (some (extract_cv_sections
          (parse_cv_raw_text inp.cv_ext inp.cv_name inp.cv_text)))
        inp.template <;>
      simp [run, h, hp, hq, failed_outcome]

/-- Witness for C4 as amended: in the all-success scenario both artifacts
exist. -/
theorem c4_witness :
    (run sample_inputs io_all_ok).ppt_written = true ∧
    (run sample_inputs io_all_ok).report_written = true :=
  (c4_artifact_order sample_inputs io_all_ok).1 (by decide)

/-- Claim C8: for every run whose instructions path extension (lower-cased)
is neither ".xlsx" nor ".xls", validation fails and the run aborts before
any trace entry is written: the trace log is empty and neither output
artifact is produced. -/
theorem c8_validation_abort (inp : RunInputs) (io_flags : IoFlags)
    (h1 : pyLower inp.instructions_ext ≠ ".xlsx")
    (h2 : pyLower inp.instructions_ext ≠ ".xls") :
    run inp io_flags = failed_outcome [] ∧
    (run inp io_flags).trace = [] ∧
    (run inp io_flags).ppt_written = false ∧
    (run inp io_flags).report_written = false := by
  have hv : validate_inputs inp = false := by
    unfold validate_inputs
    rw [beq_eq_false_iff_ne.mpr h1, beq_eq_false_iff_ne.mpr h2]
    simp
  have hrun : run inp io_flags = failed_outcome [] := by
    unfold run
    rw [hv]
    simp
  exact ⟨hrun, by rw [hrun]; rfl, by rw [hrun]; rfl, by rw [hrun]; rfl⟩

/-- The end-to-end inputs with the instructions path pointing at a `.csv`
file instead of a spreadsheet. -/
def csv_inputs : RunInputs :=
  { sample_inputs with instructions_ext := ".csv" }

/-- Witness for C8: a `.csv` instructions path aborts the run with an empty
trace log and no artifacts. -/
theorem c8_witness :
    run csv_inputs io_all_ok = failed_outcome [] ∧
    (run csv_inputs io_all_ok).trace = [] ∧
    (run csv_inputs io_all_ok).ppt_written = false ∧
    (run csv_inputs io_all_ok).report_written = false :=
  c8_validation_abort csv_inputs io_all_ok (by decide) (by decide)

end CVAutomation
